import Mathlib

/-!
Formal model of the math-problem-generator web application.

The definitions below are a shallow embedding of the TypeScript sources:

* `generateFallbackProblem`, `callAIForProblem`, `postMathProblem` model
  `src/app/api/math-problem/route.ts` in its extended variant (the one that
  carries a difficulty, a problem type and a hint).
* `evaluate`, `callAIForFeedback`, `postSubmit` model
  `src/app/api/math-problem/submit/route.ts`.
* `Store`, `insertSession`, `insertSubmission` model the SQL schema
  (`database.sql`): `math_problem_sessions` and `math_problem_submissions`,
  including the CHECK constraint on `difficulty_level`, the foreign key on
  `session_id`, and the absence of any uniqueness constraint on `session_id`.
* `difficultyConfig`, `applySubmitOutcome`, `timerTick`, `accuracyPct` model
  the client quiz page `src/app/quiz/page.tsx`.
* `postSolution` models the step-by-step solution route.

JavaScript numbers are modelled as rationals (`ℚ`); `Math.floor` is `Int.floor`
and `Math.round` is `jsRound` below.  Each call to `Math.random()` is modelled
by one value of an ambient draw function `rng : ℕ → ℚ`, indexed in the order
in which the source invokes `Math.random()`; theorems assume each draw lies in
`[0, 1)` exactly as `Math.random` guarantees.  The opaque network boundaries
(the Gemini transport, `JSON.parse` on the raw reply text) are modelled as
outcome values handed to the route functions; every branch after that boundary
is translated from the source.
-/

/-- JavaScript `Math.round`: round half towards positive infinity. -/
def jsRound (q : ℚ) : ℤ := ⌊q + 1/2⌋

/-- JavaScript truthiness of an optional string (`undefined`, `null` and the
empty string are falsy). -/
def jsFalsyStrOpt (v : Option String) : Bool :=
  match v with
  | none => true
  | some s => s.isEmpty

/-- JavaScript `v || dflt` for an optional string field. -/
def jsOrDefault (v : Option String) (dflt : String) : String :=
  match v with
  | none => dflt
  | some s => if s.isEmpty then dflt else s

/-! ## Fallback problem generator (route.ts, `generateFallbackProblem`) -/

/-- A generated problem: `{ problem_text, final_answer, hint }`. -/
structure GenProblem where
  problem_text : String
  final_answer : ℚ
  hint : String
deriving Repr, DecidableEq

/-- Word-problem template of the `addition` fallback. -/
def additionTemplate (a b : ℤ) : String :=
  s!"Sarah has {a} stickers. Her friend gives her {b} more stickers. How many stickers does Sarah have in total?"

/-- Word-problem template of the `subtraction` fallback. -/
def subtractionTemplate (larger smaller : ℤ) : String :=
  s!"A shop had {larger} books. They sold {smaller} books today. How many books are left?"

/-- Word-problem template of the `multiplication` fallback. -/
def multiplicationTemplate (a b : ℤ) : String :=
  s!"There are {a} boxes of pencils. Each box contains {b} pencils. How many pencils are there in total?"

/-- Word-problem template of the `division` fallback. -/
def divisionTemplate (dividend divisor : ℤ) : String :=
  s!"A teacher has {dividend} stickers. She gives {divisor} stickers to each student. How many students can she give stickers to?"

/-- Word-problem template of the `mixed` (default) fallback. -/
def mixedTemplate (a b : ℤ) : String :=
  s!"A teacher has {a} stickers. She gives {b} stickers to each of her students. How many students can she give stickers to if she distributes them equally?"

/-- Fixed hint of the `addition` fallback. -/
def additionHint : String :=
  "When you\x27re combining two groups of items, think about which operation helps you find the total."

/-- Fixed hint of the `subtraction` fallback. -/
def subtractionHint : String :=
  "When items are taken away or removed, think about which operation helps you find what remains."

/-- Fixed hint of the `multiplication` fallback. -/
def multiplicationHint : String :=
  "When you have equal groups of items, think about which operation helps you find the total quickly."

/-- Fixed hint of the `division` fallback. -/
def divisionHint : String :=
  "When you\x27re sharing items equally among groups, think about which operation helps you find how many groups you can make."

/-- Fixed hint of the `mixed` fallback. -/
def mixedHint : String :=
  "Think about what operation you use when dividing items equally among groups."

/-- Difficulty-dependent operand ranges `(maxA, maxB, maxMultiplier)` of the
fallback generator.  The source initialises `maxA = 50, maxB = 20,
maxMultiplier = 12` and has no `default` case in the switch, so any
unrecognised difficulty keeps the initial values. -/
def fallbackRanges (difficulty : String) : ℤ × ℤ × ℤ :=
  match difficulty with
  | "Beginner" => (50, 20, 10)
  | "Intermediate" => (100, 50, 15)
  | "Advanced" => (300, 100, 20)
  | "Expert" => (500, 200, 25)
  | _ => (50, 20, 12)

/-- The deterministic fallback generator.  `rng i` is the `i`-th value returned
by `Math.random()` during the call: draw `0` is `a`, draw `1` is `b`, and the
multiplication and division branches consume draws `2` and `3`. -/
def generateFallbackProblem (problemType difficulty : String) (rng : ℕ → ℚ) : GenProblem :=
  let r := fallbackRanges difficulty
  let maxA := r.1
  let maxB := r.2.1
  let a : ℤ := ⌊rng 0 * (maxA : ℚ)⌋ + 1
  let b : ℤ := ⌊rng 1 * (maxB : ℚ)⌋ + 1
  match problemType with
  | "addition" =>
      ⟨additionTemplate a b, ((a + b : ℤ) : ℚ), additionHint⟩
  | "subtraction" =>
      let larger := max a b
      let smaller := min a b
      ⟨subtractionTemplate larger smaller, ((larger - smaller : ℤ) : ℚ), subtractionHint⟩
  | "multiplication" =>
      let small_a : ℤ := ⌊rng 2 * 12⌋ + 2
      let small_b : ℤ := ⌊rng 3 * 10⌋ + 2
      ⟨multiplicationTemplate small_a small_b, ((small_a * small_b : ℤ) : ℚ), multiplicationHint⟩
  | "division" =>
      let dividend : ℤ := ⌊rng 2 * 50⌋ + 10
      let divisor : ℤ := ⌊rng 3 * 8⌋ + 2
      let quotient : ℤ := ⌊(dividend : ℚ) / (divisor : ℚ)⌋
      let actualDividend := quotient * divisor
      ⟨divisionTemplate actualDividend divisor, (quotient : ℚ), divisionHint⟩
  | _ =>
      ⟨mixedTemplate a b, ((⌊(a : ℚ) / (b : ℚ)⌋ : ℤ) : ℚ), mixedHint⟩

/-! ## AI problem generation boundary (`callAIForProblem`) -/

/-- Outcome of the Gemini round trip in `callAIForProblem`, one constructor per
branch of the source: missing `GOOGLE_API_KEY`, a thrown fetch, a non-OK HTTP
status, a reply whose `text` is not a string, a reply without an embedded JSON
object, a reply whose JSON fails to parse, a parsed object of the wrong shape,
and a validated reply (whose `final_answer` has already been coerced with
`Number`). -/
inductive AIProblemOutcome where
  | noApiKey
  | transportThrow
  | httpNotOk (status : ℕ)
  | replyNotString
  | replyNoJsonObject
  | replyParseError
  | replyBadShape
  | replyValid (problem_text : String) (final_answer : ℚ) (hint : String)
deriving Repr, DecidableEq

/-- Every outcome other than a validated reply makes `callAIForProblem` fall
through to the deterministic fallback generator. -/
def AIProblemOutcome.isFailure : AIProblemOutcome → Bool
  | .replyValid _ _ _ => false
  | _ => true

/-- The problem generation service: a validated AI reply is returned as-is,
every failure outcome is resolved by the fallback generator. -/
def callAIForProblem (o : AIProblemOutcome) (problemType difficulty : String)
    (rng : ℕ → ℚ) : GenProblem :=
  match o with
  | .replyValid t ans h => ⟨t, ans, h⟩
  | _ => generateFallbackProblem problemType difficulty rng

/-! ## Session store (database.sql) -/

/-- A row of `math_problem_sessions`. -/
structure DBSession where
  id : String
  problem_text : String
  correct_answer : ℚ
  difficulty_level : String
  hint : String
deriving Repr, DecidableEq

/-- A row of `math_problem_submissions`.  The submit route only supplies
`session_id`, `user_answer`, `is_correct` and `feedback_text`; the schema
defaults fill `difficulty_level = "Beginner"` and `time_used_seconds = 0`. -/
structure DBSubmission where
  session_id : String
  user_answer : ℚ
  is_correct : Bool
  feedback_text : String
  difficulty_level : String
  time_used_seconds : ℕ
deriving Repr, DecidableEq

/-- The two tables the quiz engine writes to. -/
structure Store where
  sessions : List DBSession
  submissions : List DBSubmission
deriving Repr, DecidableEq

/-- The CHECK constraint on `difficulty_level` in both tables. -/
def validDifficultyLevel (d : String) : Bool :=
  d == "Beginner" || d == "Intermediate" || d == "Advanced" || d == "Expert"

/-- Supabase `.eq('id', sessionId).single()` over `math_problem_sessions`. -/
def findSession (store : Store) (sid : String) : Option DBSession :=
  store.sessions.find? (fun s => s.id == sid)

/-- Append-only insert into `math_problem_sessions`; fails only on the
difficulty CHECK constraint. -/
def insertSession (store : Store) (s : DBSession) : Option Store :=
  if validDifficultyLevel s.difficulty_level then
    some { store with sessions := store.sessions ++ [s] }
  else none

/-- Append-only insert into `math_problem_submissions`: the foreign key
requires the referenced session to exist and the CHECK constrains the
difficulty, but the schema has no uniqueness constraint on `session_id` (only
a non-unique index), so repeated inserts for one session all succeed. -/
def insertSubmission (store : Store) (sub : DBSubmission) : Option Store :=
  if (findSession store sub.session_id).isSome && validDifficultyLevel sub.difficulty_level then
    some { store with submissions := store.submissions ++ [sub] }
  else none

/-- All persisted submissions of one session. -/
def submissionsFor (store : Store) (sid : String) : List DBSubmission :=
  store.submissions.filter (fun s => s.session_id == sid)

/-! ## Problem generation route (POST /api/math-problem) -/

/-- Parsed JSON request body of the generation endpoint; both fields are
optional. -/
structure GenBody where
  problemType : Option String
  difficulty : Option String
deriving Repr, DecidableEq

/-- The JSON payload returned on success: `{ problem: { problem_text,
final_answer, hint }, sessionId }`. -/
structure GenOk where
  problem_text : String
  final_answer : ℚ
  hint : String
  sessionId : String
deriving Repr, DecidableEq

/-- Result of the generation endpoint: the success payload or the 500
`Database error` response. -/
inductive GenResult where
  | ok (r : GenOk)
  | dbError
deriving Repr, DecidableEq

/-- The POST handler of `/api/math-problem`.  A missing or malformed JSON body
is `none` (the source recovers it to `{}` with `.catch(() => ({}))`), missing
fields fall back to `'mixed'` and `'Beginner'` through `||`, the problem is
produced by `callAIForProblem`, and one session row is inserted with the
generated id `freshId` (`gen_random_uuid()` at the store). -/
def postMathProblem (body : Option GenBody) (ai : AIProblemOutcome) (rng : ℕ → ℚ)
    (freshId : String) (store : Store) : GenResult × Store :=
  let b := body.getD ⟨none, none⟩
  let problemType := jsOrDefault b.problemType "mixed"
  let difficulty := jsOrDefault b.difficulty "Beginner"
  let problem := callAIForProblem ai problemType difficulty rng
  match insertSession store ⟨freshId, problem.problem_text, problem.final_answer, difficulty, problem.hint⟩ with
  | some store2 =>
      (.ok ⟨problem.problem_text, problem.final_answer, problem.hint, freshId⟩, store2)
  | none => (.dbError, store)

/-! ## Submit route (POST /api/math-problem/submit) -/

/-- Exact-equality answer check of the submit route:
`Number(userAnswer) === correctAnswer`. -/
def evaluate (correctAnswer userAnswer : ℚ) : Bool :=
  userAnswer == correctAnswer

/-- Fixed feedback used when the answer is correct and the AI is unavailable. -/
def wellDoneFeedback : String :=
  "Well done! You answered correctly. Keep practising similar questions to stay sharp."

/-- Fixed feedback used when the answer is wrong and the AI is unavailable. -/
def niceTryFeedback (correctAnswer : ℚ) : String :=
  s!"Nice try! The correct answer is {correctAnswer}. Reread the question and try to work step by step — draw or list what you know first."

/-- Outcome of the Gemini feedback round trip: either the AI produced a string
reply (returned trimmed), or the key was missing / the call failed and the
fixed fallback text is used. -/
inductive FeedbackOutcome where
  | unavailable
  | reply (text : String)
deriving Repr, DecidableEq

/-- The feedback helper `callAIForFeedback` of the submit route. -/
def callAIForFeedback (o : FeedbackOutcome) (correctAnswer : ℚ) (isCorrect : Bool) : String :=
  match o with
  | .reply text => text.trim
  | .unavailable =>
      if isCorrect then wellDoneFeedback else niceTryFeedback correctAnswer

/-- Parsed JSON body of the submit endpoint; `userAnswer = none` models a value
that is not of JavaScript type `number`. -/
structure SubmitBody where
  sessionId : Option String
  userAnswer : Option ℚ
deriving Repr, DecidableEq

/-- Result of the submit endpoint: the success payload `{ isCorrect, feedback }`
or one of its error responses (400 missing parameters, 404 session not found,
500 failed to save). -/
inductive SubmitResult where
  | ok (isCorrect : Bool) (feedback : String)
  | missingParameters
  | sessionNotFound
  | saveFailed
deriving Repr, DecidableEq

/-- The POST handler of `/api/math-problem/submit`: validate the parameters,
fetch the session, compare the answers exactly, build feedback, and insert one
submission row.  The handler performs no check whether a submission for the
session already exists. -/
def postSubmit (body : SubmitBody) (fb : FeedbackOutcome) (store : Store) :
    SubmitResult × Store :=
  if jsFalsyStrOpt body.sessionId then (.missingParameters, store)
  else
    match body.userAnswer with
    | none => (.missingParameters, store)
    | some userAnswer =>
        let sid := body.sessionId.getD ""
        match findSession store sid with
        | none => (.sessionNotFound, store)
        | some session =>
            let correctAnswer := session.correct_answer
            let isCorrect := evaluate correctAnswer userAnswer
            let feedback := callAIForFeedback fb correctAnswer isCorrect
            match insertSubmission store ⟨sid, userAnswer, isCorrect, feedback, "Beginner", 0⟩ with
            | some store2 => (.ok isCorrect feedback, store2)
            | none => (.saveFailed, store)

/-! ## Quiz client (src/app/quiz/page.tsx) -/

/-- The four difficulty tiers offered by the quiz page. -/
inductive Difficulty where
  | Beginner
  | Intermediate
  | Advanced
  | Expert
deriving Repr, DecidableEq

/-- Position of a tier in the quiz page's difficulty order. -/
def tierIndex : Difficulty → ℕ
  | .Beginner => 0
  | .Intermediate => 1
  | .Advanced => 2
  | .Expert => 3

/-- One entry of the `difficultyConfig` table. -/
structure DifficultySetting where
  timeLimit : ℕ
  multiplier : ℚ
  color : String
deriving Repr, DecidableEq

/-- The static `difficultyConfig` lookup table of the quiz page. -/
def difficultyConfig : Difficulty → DifficultySetting
  | .Beginner => ⟨120, 1, "green"⟩
  | .Intermediate => ⟨90, 1.5, "yellow"⟩
  | .Advanced => ⟨60, 2, "orange"⟩
  | .Expert => ⟨45, 2.5, "red"⟩

/-- The client-side quiz state touched by scoring and the countdown. -/
structure QuizState where
  score : ℕ
  totalProblems : ℕ
  totalScore : ℚ
  timeLeft : Option ℕ
  isTimerActive : Bool
  showTimeUpPopup : Bool
deriving Repr, DecidableEq

/-- Initial values of the corresponding `useState` hooks. -/
def quizInitialState : QuizState :=
  ⟨0, 0, 0, none, false, false⟩

/-- The `startTimer` helper: load the tier's time limit and activate the
countdown. -/
def startTimer (s : QuizState) (difficulty : Difficulty) : QuizState :=
  { s with timeLeft := some (difficultyConfig difficulty).timeLimit,
           isTimerActive := true }

/-- The state updates `submitAnswerInternal` performs around a successful
submit response: stop the timer, always count the attempt, and only on a
correct answer increment the correct count and add the tier multiplier to the
total score. -/
def applySubmitOutcome (s : QuizState) (difficulty : Difficulty) (isCorrect : Bool) : QuizState :=
  let s1 := { s with isTimerActive := false }
  if isCorrect then
    { s1 with totalProblems := s1.totalProblems + 1,
              score := s1.score + 1,
              totalScore := s1.totalScore + (difficultyConfig difficulty).multiplier }
  else
    { s1 with totalProblems := s1.totalProblems + 1 }

/-- One tick of the countdown effect.  The interval only runs while the timer
is active with a positive `timeLeft`; when the remaining time is about to hit
zero the callback deactivates the timer, counts the problem as attempted and
opens the time-up popup.  The second component lists the submit requests the
tick issues towards `/api/math-problem/submit`: the countdown callback contains
no such call, which the theorems below rely on. -/
def timerTick (s : QuizState) : QuizState × List SubmitBody :=
  match s.isTimerActive, s.timeLeft with
  | true, some t =>
      if 0 < t then
        if t ≤ 1 then
          ({ s with timeLeft := some 0,
                    isTimerActive := false,
                    totalProblems := s.totalProblems + 1,
                    showTimeUpPopup := true }, [])
        else
          ({ s with timeLeft := some (t - 1) }, [])
      else (s, [])
  | _, _ => (s, [])

/-- The accuracy percentage rendered by the quiz page:
`totalProblems > 0 ? Math.round((score / totalProblems) * 100) : 0`. -/
def accuracyPct (score totalProblems : ℕ) : ℤ :=
  if 0 < totalProblems then jsRound ((score : ℚ) / (totalProblems : ℚ) * 100) else 0

/-! ## Solution route (POST /api/solution) -/

/-- A solution step as returned to the client; `calculation` is optional in the
AI reply format. -/
structure SolStep where
  stepNumber : ℚ
  description : String
  calculation : Option String
  explanation : String
deriving Repr, DecidableEq

/-- A step as found in the parsed AI reply, before validation; every field may
be missing. -/
structure RawStep where
  stepNumber : Option ℚ
  description : Option String
  calculation : Option String
  explanation : Option String
deriving Repr, DecidableEq

/-- The step filter of the solution route: `stepNumber`, `description` and
`explanation` must all be truthy (so a `stepNumber` of `0` or an empty string
fails), and the two texts must be strings. -/
def rawStepValid (st : RawStep) : Bool :=
  (match st.stepNumber with
   | some q => q != 0
   | none => false) &&
  (match st.description with
   | some s => !s.isEmpty
   | none => false) &&
  (match st.explanation with
   | some s => !s.isEmpty
   | none => false)

/-- A validated raw step, carried over into the response. -/
def rawStepToStep (st : RawStep) : SolStep :=
  ⟨st.stepNumber.getD 0, st.description.getD "", st.calculation, st.explanation.getD ""⟩

/-- Outcome of the Gemini solution round trip: the call itself threw (caught by
the outer handler), the reply text contained no parseable JSON object (caught
by the inner handler), or a parsed JSON object with its optional pieces. -/
inductive SolutionAI where
  | callFailed
  | parseFailed
  | parsed (steps : Option (List RawStep)) (finalAnswer : Option ℚ) (summary : Option String)
deriving Repr, DecidableEq

/-- The `finalAnswer` field of the response JSON, which the generic fallback
fills with a string instead of a number. -/
inductive AnswerVal where
  | num (q : ℚ)
  | str (s : String)
deriving Repr, DecidableEq

/-- The solution payload: steps, final answer, summary, plus the `fallback`
flag of the parse-failure response and the `error` note of the generic
response. -/
structure SolutionOk where
  steps : List SolStep
  finalAnswer : AnswerVal
  summary : String
  fallback : Bool
  errorNote : Option String
deriving Repr, DecidableEq

/-- Result of the solution endpoint: a solution payload (the route answers 200
with `success: true` on every path past validation) or the 400 response. -/
inductive SolutionResult where
  | ok (r : SolutionOk)
  | badRequest
deriving Repr, DecidableEq

/-- The fixed 4-step fallback built when the AI reply cannot be parsed into at
least one well-formed step; its last step states the known correct answer. -/
def parseFallbackSolution (answer : ℚ) : SolutionOk :=
  ⟨[⟨1, "Read the problem carefully and identify what you need to find.",
      some "No calculation needed",
      "Understanding the problem is the first step to solving it correctly."⟩,
    ⟨2, "Identify the numbers and operation needed.",
      some "Look for key words that tell you what to do",
      "Words like \x27total\x27, \x27altogether\x27 suggest addition. Words like \x27left\x27, \x27remaining\x27 suggest subtraction."⟩,
    ⟨3, "Perform the calculation step by step.",
      some "Work through the math carefully",
      "Take your time and double-check each step to avoid mistakes."⟩,
    ⟨4, "Check if your answer makes sense.",
      some s!"Final answer: {answer}",
      "Always ask yourself: \x27Does this answer seem reasonable for this problem?\x27"⟩],
   .num answer,
   "Remember to read carefully, identify the operation, calculate step by step, and check your work!",
   true, none⟩

/-- The fixed generic solution built when the AI call itself fails; note its
`finalAnswer` is the literal string `Check your calculation`, not the correct
answer (which is out of scope in the outer catch handler). -/
def genericSolution : SolutionOk :=
  ⟨[⟨1, "Read the problem carefully to understand what is being asked.",
      some "No calculation needed",
      "Make sure you know what the problem wants you to find."⟩,
    ⟨2, "Look for the important numbers and decide what operation to use.",
      some "Identify the numbers in the problem",
      "Think about whether you need to add, subtract, multiply, or divide."⟩,
    ⟨3, "Solve the problem step by step.",
      some "Perform the calculation carefully",
      "Work through each step slowly and check your arithmetic."⟩],
   .str "Check your calculation",
   "Take your time, work step by step, and always check your answer!",
   false, some "Used generic solution due to error"⟩

/-- The POST handler of `/api/solution`: validate the inputs, then return the
parsed AI solution restricted to its well-formed steps, or the parse-failure
fallback, or the generic solution when the call failed. -/
def postSolution (problem : Option String) (answer : Option ℚ)
    (difficulty : Option String) (ai : SolutionAI) : SolutionResult :=
  let _ := difficulty
  if jsFalsyStrOpt problem then .badRequest
  else
    match answer with
    | none => .badRequest
    | some ans =>
        match ai with
        | .callFailed => .ok genericSolution
        | .parseFailed => .ok (parseFallbackSolution ans)
        | .parsed steps fin sum =>
            match steps with
            | none => .ok (parseFallbackSolution ans)
            | some stepList =>
                if stepList.isEmpty then .ok (parseFallbackSolution ans)
                else
                  let validSteps := stepList.filter rawStepValid
                  if validSteps.isEmpty then .ok (parseFallbackSolution ans)
                  else
                    let fa : AnswerVal :=
                      match fin with
                      | some q => if q = 0 then .num ans else .num q
                      | none => .num ans
                    let summaryOut :=
                      match sum with
                      | some s => if s.isEmpty then "Follow these steps to solve similar problems." else s
                      | none => "Follow these steps to solve similar problems."
                    .ok ⟨validSteps.map rawStepToStep, fa, summaryOut, false, none⟩

/-! ## Helper lemmas -/

/-- Behaviour of the submit route when the parameters are present and the
session exists: the answer is compared exactly, feedback is built, and one
submission row is appended regardless of any earlier submissions. -/
theorem postSubmit_found_eq (store : Store) (sid : String) (sess : DBSession)
    (u : ℚ) (fb : FeedbackOutcome)
    (hsid : sid ≠ "") (hfind : findSession store sid = some sess) :
    postSubmit ⟨some sid, some u⟩ fb store
      = (.ok (evaluate sess.correct_answer u)
            (callAIForFeedback fb sess.correct_answer (evaluate sess.correct_answer u)),
         { store with submissions := store.submissions ++
            [⟨sid, u, evaluate sess.correct_answer u,
              callAIForFeedback fb sess.correct_answer (evaluate sess.correct_answer u),
              "Beginner", 0⟩] }) := by
  have hempty : sid.isEmpty = false := by
    cases h : sid.isEmpty
    · rfl
    · exact absurd ((String.isEmpty_iff sid).1 h) hsid
  have hvalid : validDifficultyLevel "Beginner" = true := rfl
  simp [postSubmit, jsFalsyStrOpt, hempty, hfind, insertSubmission, hvalid]

/-- The submit route never touches the sessions table. -/
theorem postSubmit_sessions (body : SubmitBody) (fb : FeedbackOutcome) (store : Store) :
    (postSubmit body fb store).2.sessions = store.sessions := by
  unfold postSubmit insertSubmission
  repeat first | rfl | split | dsimp only
  all_goals
    (rename_i heq
     split at heq <;>
       first
         | rfl
         | exact Option.noConfusion heq
         | (injection heq with h2
            subst h2
            rfl))

/-- Inserting a submission leaves the sessions table unchanged, so session
lookups after a submit see the same rows. -/
theorem findSession_after_submit (store : Store) (body : SubmitBody)
    (fb : FeedbackOutcome) (sid : String) :
    findSession (postSubmit body fb store).2 sid = findSession store sid := by
  simp [findSession, postSubmit_sessions]

/-- Appending a submission row for a session extends that session's submission
list by exactly that row. -/
theorem submissionsFor_append (store : Store) (sub : DBSubmission) :
    submissionsFor { store with submissions := store.submissions ++ [sub] } sub.session_id
      = submissionsFor store sub.session_id ++ [sub] := by
  simp [submissionsFor, List.filter_append]

/-- Computation rule for the integer floor of a rational, used to evaluate the
model on concrete inputs. -/
theorem intFloor_rat (q : ℚ) : ⌊q⌋ = q.num / q.den := Rat.floor_def

/-! ## Claim C3 -/

/-- C3: for every persisted session and every numeric user answer, the submit
route sets `isCorrect` to true exactly when the coerced user answer equals the
session's correct answer, with no tolerance band; in particular
`evaluate 15 15 = true`, `evaluate 15 15.0 = true`, `evaluate 15 14 = false`,
and the route's response and the persisted submission both carry this exact
comparison. -/
theorem C3_evaluate_exact_equality :
    (∀ c u : ℚ, evaluate c u = true ↔ u = c)
    ∧ evaluate 15 15 = true
    ∧ evaluate 15 (15.0 : ℚ) = true
    ∧ evaluate 15 14 = false
    ∧ (∀ (store : Store) (sid : String) (sess : DBSession) (u : ℚ) (fb : FeedbackOutcome),
        sid ≠ "" → findSession store sid = some sess →
        postSubmit ⟨some sid, some u⟩ fb store
          = (.ok (evaluate sess.correct_answer u)
                (callAIForFeedback fb sess.correct_answer (evaluate sess.correct_answer u)),
             { store with submissions := store.submissions ++
                [⟨sid, u, evaluate sess.correct_answer u,
                  callAIForFeedback fb sess.correct_answer (evaluate sess.correct_answer u),
                  "Beginner", 0⟩] })) := by
  refine ⟨?_, rfl, by simp [evaluate, beq_iff_eq]; norm_num, rfl, ?_⟩
  · intro c u
    exact beq_iff_eq
  · intro store sid sess u fb hsid hfind
    exact postSubmit_found_eq store sid sess u fb hsid hfind

/-- Witness for C3: an exact-match submission against a concrete store. -/
theorem C3_evaluate_exact_equality_witness :
    postSubmit ⟨some "sess-3", some 15⟩ .unavailable
        ⟨[⟨"sess-3", "What is 7 plus 8?", 15, "Beginner", "add the parts"⟩], []⟩
      = (.ok (evaluate 15 15) (callAIForFeedback .unavailable 15 (evaluate 15 15)),
         ⟨[⟨"sess-3", "What is 7 plus 8?", 15, "Beginner", "add the parts"⟩],
          [⟨"sess-3", 15, evaluate 15 15,
            callAIForFeedback .unavailable 15 (evaluate 15 15), "Beginner", 0⟩]⟩) :=
  C3_evaluate_exact_equality.2.2.2.2
    ⟨[⟨"sess-3", "What is 7 plus 8?", 15, "Beginner", "add the parts"⟩], []⟩
    "sess-3" ⟨"sess-3", "What is 7 plus 8?", 15, "Beginner", "add the parts"⟩
    15 .unavailable (by decide) rfl

/-! ## Claim C1 -/

/-- C1 counterexample: for a concrete session whose first submission has been
persisted, a second submit for the same session id is not rejected — it
returns the ordinary success payload, and the store then holds two
submissions for that session instead of one. -/
theorem C1_counterexample :
    ((postSubmit ⟨some "s1", some 4⟩ .unavailable
        (postSubmit ⟨some "s1", some 4⟩ .unavailable
          ⟨[⟨"s1", "What is 2 plus 2?", 4, "Beginner", "add them"⟩], []⟩).2).1
      = .ok true wellDoneFeedback)
    ∧ (submissionsFor (postSubmit ⟨some "s1", some 4⟩ .unavailable
        (postSubmit ⟨some "s1", some 4⟩ .unavailable
          ⟨[⟨"s1", "What is 2 plus 2?", 4, "Beginner", "add them"⟩], []⟩).2).2 "s1").length = 2
    ∧ ¬ (submissionsFor (postSubmit ⟨some "s1", some 4⟩ .unavailable
        (postSubmit ⟨some "s1", some 4⟩ .unavailable
          ⟨[⟨"s1", "What is 2 plus 2?", 4, "Beginner", "add them"⟩], []⟩).2).2 "s1").length = 1 := by
  refine ⟨rfl, rfl, ?_⟩
  decide

/-- C1 (amended): the submit route performs no terminal-state check and the
submissions table has no uniqueness constraint on `session_id`, so after a
first successful submission a second submit for the same session also
succeeds, and the store then contains two submissions for that session. -/
theorem C1_duplicate_submission_accepted (store : Store) (sid : String) (sess : DBSession)
    (u1 u2 : ℚ) (fb1 fb2 : FeedbackOutcome)
    (hsid : sid ≠ "") (hfind : findSession store sid = some sess) :
    (∃ c f, (postSubmit ⟨some sid, some u1⟩ fb1 store).1 = .ok c f)
    ∧ (∃ c f, (postSubmit ⟨some sid, some u2⟩ fb2
        (postSubmit ⟨some sid, some u1⟩ fb1 store).2).1 = .ok c f)
    ∧ (submissionsFor (postSubmit ⟨some sid, some u1⟩ fb1 store).2 sid).length
        = (submissionsFor store sid).length + 1
    ∧ (submissionsFor (postSubmit ⟨some sid, some u2⟩ fb2
        (postSubmit ⟨some sid, some u1⟩ fb1 store).2).2 sid).length
        = (submissionsFor store sid).length + 2 := by
  have h1 := postSubmit_found_eq store sid sess u1 fb1 hsid hfind
  have hfind2 : findSession (postSubmit ⟨some sid, some u1⟩ fb1 store).2 sid = some sess := by
    rw [findSession_after_submit]
    exact hfind
  have h2 := postSubmit_found_eq (postSubmit ⟨some sid, some u1⟩ fb1 store).2 sid sess u2 fb2 hsid hfind2
  refine ⟨⟨_, _, by rw [h1]⟩, ⟨_, _, by rw [h2]⟩, ?_, ?_⟩
  · rw [h1]
    have := submissionsFor_append store
      ⟨sid, u1, evaluate sess.correct_answer u1,
        callAIForFeedback fb1 sess.correct_answer (evaluate sess.correct_answer u1), "Beginner", 0⟩
    simp only at this
    rw [this]
    simp
  · rw [h2, h1]
    simp [submissionsFor, List.filter_append]

/-- Witness for C1: the duplicate-submission behaviour at a concrete store. -/
theorem C1_duplicate_submission_accepted_witness :
    (∃ c f, (postSubmit ⟨some "s9", some 12⟩ .unavailable
        ⟨[⟨"s9", "What is 3 times 4?", 12, "Beginner", "equal groups"⟩], []⟩).1 = .ok c f)
    ∧ (∃ c f, (postSubmit ⟨some "s9", some 11⟩ .unavailable
        (postSubmit ⟨some "s9", some 12⟩ .unavailable
          ⟨[⟨"s9", "What is 3 times 4?", 12, "Beginner", "equal groups"⟩], []⟩).2).1 = .ok c f)
    ∧ (submissionsFor (postSubmit ⟨some "s9", some 12⟩ .unavailable
        ⟨[⟨"s9", "What is 3 times 4?", 12, "Beginner", "equal groups"⟩], []⟩).2 "s9").length
        = (submissionsFor ⟨[⟨"s9", "What is 3 times 4?", 12, "Beginner", "equal groups"⟩], []⟩ "s9").length + 1
    ∧ (submissionsFor (postSubmit ⟨some "s9", some 11⟩ .unavailable
        (postSubmit ⟨some "s9", some 12⟩ .unavailable
          ⟨[⟨"s9", "What is 3 times 4?", 12, "Beginner", "equal groups"⟩], []⟩).2).2 "s9").length
        = (submissionsFor ⟨[⟨"s9", "What is 3 times 4?", 12, "Beginner", "equal groups"⟩], []⟩ "s9").length + 2 :=
  C1_duplicate_submission_accepted
    ⟨[⟨"s9", "What is 3 times 4?", 12, "Beginner", "equal groups"⟩], []⟩
    "s9" ⟨"s9", "What is 3 times 4?", 12, "Beginner", "equal groups"⟩
    12 11 .unavailable .unavailable (by decide) rfl

/-! ## Claim C2 -/

/-- C2 counterexample: a concrete run of the generation endpoint (no API key,
fixed draws) returns a payload that carries `final_answer`, and that value
equals the `correct_answer` stored for the created session — the response is
not limited to session id, problem text and hint. -/
theorem C2_counterexample :
    (postMathProblem none .noApiKey (fun _ => 1/2) "session-1" ⟨[], []⟩).1
      = .ok ⟨mixedTemplate 26 11, 2, mixedHint, "session-1"⟩
    ∧ (postMathProblem none .noApiKey (fun _ => 1/2) "session-1" ⟨[], []⟩).2.sessions
      = [⟨"session-1", mixedTemplate 26 11, 2, "Beginner", mixedHint⟩]
    ∧ ((⟨"session-1", mixedTemplate 26 11, 2, "Beginner", mixedHint⟩ : DBSession).correct_answer
      = (2 : ℚ)) := by
  refine ⟨?_, ?_, rfl⟩ <;>
    (norm_num [postMathProblem, callAIForProblem, generateFallbackProblem, jsOrDefault,
      fallbackRanges, insertSession, validDifficultyLevel]
     exact ⟨rfl, rfl, rfl⟩)

/-- C2 (amended): the start-session response contains the session id, the
problem text and the hint, but additionally the `final_answer` field, and the
persisted session's `correct_answer` is exactly that value — the correct
answer is exposed to the client before any submission. -/
theorem C2_response_includes_answer (body : Option GenBody) (ai : AIProblemOutcome)
    (rng : ℕ → ℚ) (freshId : String) (store : Store) (r : GenOk)
    (h : (postMathProblem body ai rng freshId store).1 = .ok r) :
    r.sessionId = freshId
    ∧ (postMathProblem body ai rng freshId store).2.sessions
        = store.sessions ++
          [⟨freshId, r.problem_text, r.final_answer,
            jsOrDefault (body.getD ⟨none, none⟩).difficulty "Beginner", r.hint⟩] := by
  simp only [postMathProblem] at h ⊢
  split at h
  · rename_i store2 heq
    injection h with h2
    subst h2
    simp only [heq]
    refine ⟨by trivial, ?_⟩
    unfold insertSession at heq
    split at heq
    · injection heq with h3
      subst h3
      rfl
    · exact Option.noConfusion heq
  · exact GenResult.noConfusion h

/-- Witness for C2: a validated AI reply flows into the response together with
its final answer, which is stored as the session's correct answer. -/
theorem C2_response_includes_answer_witness :
    ((⟨"Two frogs join two frogs. How many frogs?", 4, "count them", "sess-7"⟩ : GenOk).sessionId
        = "sess-7")
    ∧ (postMathProblem (some ⟨some "addition", some "Beginner"⟩)
          (.replyValid "Two frogs join two frogs. How many frogs?" 4 "count them")
          (fun _ => 0) "sess-7" ⟨[], []⟩).2.sessions
        = [] ++
          [⟨"sess-7", "Two frogs join two frogs. How many frogs?", 4, "Beginner", "count them"⟩] :=
  C2_response_includes_answer (some ⟨some "addition", some "Beginner"⟩)
    (.replyValid "Two frogs join two frogs. How many frogs?" 4 "count them")
    (fun _ => 0) "sess-7" ⟨[], []⟩
    ⟨"Two frogs join two frogs. How many frogs?", 4, "count them", "sess-7"⟩ rfl

/-! ## Claim C10 -/

/-- C10: when the request body of the generation endpoint is absent or
malformed (recovered to `{}`) or lacks `problemType` or `difficulty`, the
endpoint does not reject the request: it behaves exactly as if the body were
`{problemType: "mixed", difficulty: "Beginner"}` and returns a success
payload. -/
theorem C10_body_defaults (ai : AIProblemOutcome) (rng : ℕ → ℚ)
    (freshId : String) (store : Store) :
    postMathProblem none ai rng freshId store
      = postMathProblem (some ⟨some "mixed", some "Beginner"⟩) ai rng freshId store
    ∧ postMathProblem (some ⟨none, none⟩) ai rng freshId store
      = postMathProblem (some ⟨some "mixed", some "Beginner"⟩) ai rng freshId store
    ∧ ∃ r : GenOk, (postMathProblem none ai rng freshId store).1 = .ok r := by
  refine ⟨rfl, rfl, ?_⟩
  refine ⟨⟨(callAIForProblem ai "mixed" "Beginner" rng).problem_text,
          (callAIForProblem ai "mixed" "Beginner" rng).final_answer,
          (callAIForProblem ai "mixed" "Beginner" rng).hint, freshId⟩, ?_⟩
  simp [postMathProblem, insertSession, validDifficultyLevel, jsOrDefault]

/-! ## Claim C4 -/

/-- C4 counterexample: at a concrete active state with one second left, the
countdown tick issues no submit request at all — the client only counts the
attempt, stops the timer and opens the time-up popup — so the expired session
gets zero Submissions rather than exactly one with `isCorrect = false`. -/
theorem C4_counterexample :
    (timerTick ⟨2, 5, 3, some 1, true, false⟩).2 = []
    ∧ ¬ ((timerTick ⟨2, 5, 3, some 1, true, false⟩).2).length = 1
    ∧ (timerTick ⟨2, 5, 3, some 1, true, false⟩).1 = ⟨2, 6, 3, some 0, false, true⟩ :=
  ⟨rfl, by decide, rfl⟩

/-- C4 (amended): when the countdown reaches zero with no submission, the quiz
client performs no submit request (so no Submission row is ever created for
the expired session); it only increments the attempted counter, deactivates
the timer, opens the time-up popup, and leaves the correct count and the total
score unchanged. -/
theorem C4_expiry_no_submission (s : QuizState) (t : ℕ)
    (hact : s.isTimerActive = true) (ht : s.timeLeft = some t)
    (h1 : 0 < t) (h2 : t ≤ 1) :
    (timerTick s).2 = []
    ∧ (timerTick s).1.totalProblems = s.totalProblems + 1
    ∧ (timerTick s).1.isTimerActive = false
    ∧ (timerTick s).1.showTimeUpPopup = true
    ∧ (timerTick s).1.timeLeft = some 0
    ∧ (timerTick s).1.score = s.score
    ∧ (timerTick s).1.totalScore = s.totalScore := by
  simp [timerTick, hact, ht, h1, h2]

/-- Witness for C4: expiry at a concrete one-second state. -/
theorem C4_expiry_no_submission_witness :
    (timerTick ⟨0, 0, 0, some 1, true, false⟩).2 = []
    ∧ (timerTick ⟨0, 0, 0, some 1, true, false⟩).1.totalProblems = 0 + 1
    ∧ (timerTick ⟨0, 0, 0, some 1, true, false⟩).1.isTimerActive = false
    ∧ (timerTick ⟨0, 0, 0, some 1, true, false⟩).1.showTimeUpPopup = true
    ∧ (timerTick ⟨0, 0, 0, some 1, true, false⟩).1.timeLeft = some 0
    ∧ (timerTick ⟨0, 0, 0, some 1, true, false⟩).1.score = 0
    ∧ (timerTick ⟨0, 0, 0, some 1, true, false⟩).1.totalScore = 0 :=
  C4_expiry_no_submission ⟨0, 0, 0, some 1, true, false⟩ 1 rfl rfl (by decide) (by decide)

/-! ## Claim C7 -/

/-- C7: a submission adds `0` to the total score when the answer is incorrect
and otherwise the tier's multiplier — Beginner 1.0, Intermediate 1.5, Advanced
2.0, Expert 2.5 — and the multipliers are monotonically non-decreasing in the
difficulty order. -/
theorem C7_score_delta :
    (∀ (s : QuizState) (d : Difficulty) (c : Bool),
        (applySubmitOutcome s d c).totalScore
          = s.totalScore + (if c then (difficultyConfig d).multiplier else 0))
    ∧ (difficultyConfig .Beginner).multiplier = 1
    ∧ (difficultyConfig .Intermediate).multiplier = 1.5
    ∧ (difficultyConfig .Advanced).multiplier = 2
    ∧ (difficultyConfig .Expert).multiplier = 2.5
    ∧ (∀ d₁ d₂ : Difficulty, tierIndex d₁ ≤ tierIndex d₂ →
        (difficultyConfig d₁).multiplier ≤ (difficultyConfig d₂).multiplier) := by
  refine ⟨?_, rfl, rfl, rfl, rfl, ?_⟩
  · intro s d c
    cases c <;> simp [applySubmitOutcome]
  · intro d₁ d₂ h
    cases d₁ <;> cases d₂ <;>
      first
        | exact absurd h (by decide)
        | norm_num [difficultyConfig]

/-- Witness for C7: the Expert delta and one monotonicity instance. -/
theorem C7_score_delta_witness :
    (applySubmitOutcome quizInitialState .Expert true).totalScore
      = quizInitialState.totalScore + (if true then (difficultyConfig .Expert).multiplier else 0)
    ∧ (difficultyConfig .Beginner).multiplier ≤ (difficultyConfig .Expert).multiplier :=
  ⟨C7_score_delta.1 quizInitialState .Expert true,
   C7_score_delta.2.2.2.2.2 .Beginner .Expert (by decide)⟩

/-! ## Claim C8 -/

/-- C8: every submission outcome increments the attempted count, and only a
correct outcome increments the correct count and adds the tier's delta to the
total score; the displayed accuracy is `round(100 * correctCount /
attemptedCount)` and `0` when nothing was attempted; the outcome sequence
[correct, incorrect, correct] at Beginner difficulty yields 2 correct out of
3 attempted, total score 2.0 and accuracy 67. -/
theorem C8_accumulate_tally :
    (∀ (s : QuizState) (d : Difficulty) (c : Bool),
        (applySubmitOutcome s d c).totalProblems = s.totalProblems + 1
        ∧ (applySubmitOutcome s d c).score = s.score + (if c then 1 else 0)
        ∧ (applySubmitOutcome s d c).totalScore
            = s.totalScore + (if c then (difficultyConfig d).multiplier else 0))
    ∧ (∀ sc t : ℕ, accuracyPct sc t = if 0 < t then jsRound (100 * sc / t) else 0)
    ∧ (∀ sc : ℕ, accuracyPct sc 0 = 0)
    ∧ ((List.foldl (fun s c => applySubmitOutcome s .Beginner c) quizInitialState
          [true, false, true]).score = 2
       ∧ (List.foldl (fun s c => applySubmitOutcome s .Beginner c) quizInitialState
          [true, false, true]).totalProblems = 3
       ∧ (List.foldl (fun s c => applySubmitOutcome s .Beginner c) quizInitialState
          [true, false, true]).totalScore = 2
       ∧ accuracyPct 2 3 = 67) := by
  refine ⟨?_, ?_, ?_, ?_, ?_, ?_, ?_⟩
  · intro s d c
    cases c <;> simp [applySubmitOutcome]
  · intro sc t
    by_cases h : 0 < t
    · simp only [accuracyPct, if_pos h]
      congr 1
      ring
    · simp [accuracyPct, h]
  · intro sc
    simp [accuracyPct]
  · simp [List.foldl, applySubmitOutcome, quizInitialState]
  · simp [List.foldl, applySubmitOutcome, quizInitialState]
  · norm_num [List.foldl, applySubmitOutcome, quizInitialState, difficultyConfig]
  · norm_num [accuracyPct, jsRound]

/-- A string append whose left part is nonempty is nonempty. -/
theorem string_append_left_ne_empty (s t : String) (hs : s ≠ "") : s ++ t ≠ "" := by
  intro h
  apply hs
  have hd := congrArg String.data h
  rw [String.data_append] at hd
  have h1 : s.data = [] := (List.append_eq_nil.1 hd).1
  cases s with
  | mk data =>
      cases h1
      rfl

/-- Casting a product of integers into the rationals factor by factor. -/
theorem cast_mul_int (q d : ℤ) : ((q : ℚ)) * ((d : ℚ)) = ((q * d : ℤ) : ℚ) := by
  push_cast
  ring

/-! ## Claim C5 -/

/-- C5 counterexample: the `mixed` fallback is not an exact division — with
Beginner draws yielding `a = 7` and `b = 2` the problem states a dividend of 7
and a divisor of 2 while the final answer is `⌊7/2⌋ = 3`, so the stated
dividend is not `final_answer * divisor` and the division leaves remainder 1. -/
theorem C5_counterexample :
    generateFallbackProblem "mixed" "Beginner" (fun i => if i = 0 then 6/50 else 1/20)
      = ⟨mixedTemplate 7 2, 3, mixedHint⟩
    ∧ ¬ ((3 : ℚ) * 2 = 7)
    ∧ (7 : ℤ) % 2 = 1 := by
  refine ⟨?_, by norm_num, by decide⟩
  norm_num [generateFallbackProblem, fallbackRanges]
  rfl

/-- C5 (amended): for every difficulty tier and in-range random draws, the
`division` fallback states a dividend equal to `final_answer` times the
divisor, the divisor is positive, the division leaves zero remainder, and the
final answer is an integer; the `mixed` fallback does not share this property
(it floor-divides two independently sampled operands). -/
theorem C5_division_fallback_exact (difficulty : String) (rng : ℕ → ℚ)
    (h : ∀ i, 0 ≤ rng i ∧ rng i < 1) :
    ∃ dividend divisor : ℤ,
      0 < divisor
      ∧ (generateFallbackProblem "division" difficulty rng).problem_text
          = divisionTemplate dividend divisor
      ∧ ((generateFallbackProblem "division" difficulty rng).final_answer * (divisor : ℚ)
          = (dividend : ℚ))
      ∧ dividend % divisor = 0
      ∧ (∃ k : ℤ, (generateFallbackProblem "division" difficulty rng).final_answer = (k : ℚ)) := by
  have h8 : (0 : ℚ) ≤ rng 3 * 8 := by
    have := (h 3).1
    positivity
  have hpos : (0 : ℤ) < ⌊rng 3 * 8⌋ + 2 := by
    have : (0 : ℤ) ≤ ⌊rng 3 * 8⌋ := Int.floor_nonneg.2 h8
    omega
  refine ⟨⌊((⌊rng 2 * 50⌋ + 10 : ℤ) : ℚ) / ((⌊rng 3 * 8⌋ + 2 : ℤ) : ℚ)⌋ * (⌊rng 3 * 8⌋ + 2),
          ⌊rng 3 * 8⌋ + 2, hpos, ?_, ?_, ?_, ?_⟩
  · rfl
  · exact cast_mul_int _ _
  · exact Int.mul_emod_left _ _
  · exact ⟨_, rfl⟩

/-- Witness for C5: the division fallback at Beginner with all draws 1/2. -/
theorem C5_division_fallback_exact_witness :
    ∃ dividend divisor : ℤ,
      0 < divisor
      ∧ (generateFallbackProblem "division" "Beginner" (fun _ => 1/2)).problem_text
          = divisionTemplate dividend divisor
      ∧ ((generateFallbackProblem "division" "Beginner" (fun _ => 1/2)).final_answer * (divisor : ℚ)
          = (dividend : ℚ))
      ∧ dividend % divisor = 0
      ∧ (∃ k : ℤ, (generateFallbackProblem "division" "Beginner" (fun _ => 1/2)).final_answer = (k : ℚ)) :=
  C5_division_fallback_exact "Beginner" (fun _ => 1/2)
    (fun _ => ⟨by norm_num, by norm_num⟩)

/-! ## Claim C6 -/

/-- C6: problem generation never fails — on every AI failure outcome
(missing key, transport error, non-OK status, non-string reply, missing or
malformed or mis-shaped JSON) the service returns exactly the deterministic
fallback problem, which always carries a non-empty problem text and a
non-empty hint (its numeric final answer is part of its type). -/
theorem C6_generation_never_fails (o : AIProblemOutcome) (problemType difficulty : String)
    (rng : ℕ → ℚ) (h : o.isFailure = true) :
    callAIForProblem o problemType difficulty rng
      = generateFallbackProblem problemType difficulty rng
    ∧ (generateFallbackProblem problemType difficulty rng).hint ≠ ""
    ∧ (generateFallbackProblem problemType difficulty rng).problem_text ≠ "" := by
  refine ⟨?_, ?_, ?_⟩
  · cases o <;> first | rfl | exact Bool.noConfusion h
  · unfold generateFallbackProblem
    dsimp only
    split <;>
      first
        | exact (show additionHint ≠ "" by decide)
        | exact (show subtractionHint ≠ "" by decide)
        | exact (show multiplicationHint ≠ "" by decide)
        | exact (show divisionHint ≠ "" by decide)
        | exact (show mixedHint ≠ "" by decide)
  · unfold generateFallbackProblem
    dsimp only
    split <;>
      (dsimp only [additionTemplate, subtractionTemplate, multiplicationTemplate,
        divisionTemplate, mixedTemplate]
       exact string_append_left_ne_empty _ _
         (string_append_left_ne_empty _ _
           (string_append_left_ne_empty _ _
             (string_append_left_ne_empty _ _ (by decide)))))

/-- Witness for C6: a transport failure at addition Beginner resolves to the
fallback problem. -/
theorem C6_generation_never_fails_witness :
    callAIForProblem .transportThrow "addition" "Beginner" (fun _ => 0)
      = generateFallbackProblem "addition" "Beginner" (fun _ => 0)
    ∧ (generateFallbackProblem "addition" "Beginner" (fun _ => 0)).hint ≠ ""
    ∧ (generateFallbackProblem "addition" "Beginner" (fun _ => 0)).problem_text ≠ "" :=
  C6_generation_never_fails .transportThrow "addition" "Beginner" (fun _ => 0) rfl

/-! ## Claim C9 -/

/-- C9 counterexample: when the AI solution call itself fails (outer catch),
the route returns the generic solution whose `finalAnswer` is the fixed string
`Check your calculation` — not the session's correct answer — and whose last
step does not state the correct answer either. -/
theorem C9_counterexample :
    postSolution (some "A bakery sold 45 cupcakes. How many boxes of 15?") (some 3)
        (some "Beginner") .callFailed
      = .ok genericSolution
    ∧ genericSolution.finalAnswer = .str "Check your calculation"
    ∧ genericSolution.finalAnswer ≠ .num 3
    ∧ (genericSolution.steps.map (fun st => st.calculation)).getLast?
        = some (some "Perform the calculation carefully") :=
  ⟨rfl, rfl, by decide, rfl⟩

/-- C9 (amended): only the parse-failure path ends in the known correct
answer: when the AI reply cannot be parsed into at least one well-formed step,
the route returns the fixed 4-step fallback whose `finalAnswer` equals the
correct answer and whose last step states `Final answer: <answer>`; when the
AI call itself fails, the route instead returns the fixed generic 3-step
solution whose `finalAnswer` is the string `Check your calculation`.  The
steps sequence is non-empty in both cases. -/
theorem C9_solution_fallbacks (problem : String) (ans : ℚ) (difficulty : Option String)
    (hp : problem ≠ "") :
    (postSolution (some problem) (some ans) difficulty .parseFailed
        = .ok (parseFallbackSolution ans)
      ∧ (parseFallbackSolution ans).steps.length = 4
      ∧ (parseFallbackSolution ans).finalAnswer = .num ans
      ∧ ((parseFallbackSolution ans).steps.map (fun st => st.calculation)).getLast?
          = some (some s!"Final answer: {ans}"))
    ∧ (postSolution (some problem) (some ans) difficulty .callFailed = .ok genericSolution
      ∧ genericSolution.steps.length = 3
      ∧ genericSolution.finalAnswer = .str "Check your calculation") := by
  have hempty : problem.isEmpty = false := by
    cases hh : problem.isEmpty
    · rfl
    · exact absurd ((String.isEmpty_iff problem).1 hh) hp
  refine ⟨⟨?_, rfl, rfl, rfl⟩, ?_, rfl, rfl⟩
  · simp [postSolution, jsFalsyStrOpt, hempty]
  · simp [postSolution, jsFalsyStrOpt, hempty]

/-- Witness for C9: both fallback paths at a concrete problem and answer. -/
theorem C9_solution_fallbacks_witness :
    (postSolution (some "p") (some 5) none .parseFailed
        = .ok (parseFallbackSolution 5)
      ∧ (parseFallbackSolution 5).steps.length = 4
      ∧ (parseFallbackSolution 5).finalAnswer = .num 5
      ∧ ((parseFallbackSolution 5).steps.map (fun st => st.calculation)).getLast?
          = some (some s!"Final answer: {(5 : ℚ)}"))
    ∧ (postSolution (some "p") (some 5) none .callFailed = .ok genericSolution
      ∧ genericSolution.steps.length = 3
      ∧ genericSolution.finalAnswer = .str "Check your calculation") :=
  C9_solution_fallbacks "p" 5 none (by decide)
